import Mathlib

/-!
Verification of `logstash_formatter/__init__.py` (a JSON log formatter for
`logging` records) against its natural-language specification.

The embedding is shallow: Python dicts become association lists with
insertion-order semantics (`dget` / `dinsert` / `dpop` / `dupdate`), JSON
values become the inductive `Value`, and the fallible parts of the code
return `Except PyErr`.  External collaborators (the `json`, `socket` and
`traceback` standard-library modules and `str.format` / `record.getMessage`)
are modelled as parameters or, where the spec pins their behaviour down, as
definitions marked "Modelled from the spec".
-/

set_option maxHeartbeats 1000000

namespace Logstash

/-- A JSON-like Python value, as produced by `json.loads` and carried in
`logging` record attributes. -/
inductive Value where
  | str (s : String)
  | int (n : Int)
  | bool (b : Bool)
  | null
  | list (l : List Value)
  | dict (d : List (String × Value))

/-- A Python dict with string keys, represented as its insertion-ordered
item list.  Genuine dicts have no duplicate keys; the operations below
implement exactly CPython's dict semantics on such lists. -/
abbrev PyDict := List (String × Value)

/-- `d[k]` lookup returning `none` when absent (Python `dict.get`). -/
def dget : PyDict → String → Option Value
  | [], _ => none
  | (a, v) :: rest, k => if a = k then some v else dget rest k

/-- Key list of a dict, in order. -/
def dkeys (d : PyDict) : List String := d.map Prod.fst

/-- `d[k] = v`: replace the value in place when the key exists (keeping its
position, as CPython does), otherwise append the new pair at the end. -/
def dinsert : PyDict → String → Value → PyDict
  | [], k, v => [(k, v)]
  | (a, w) :: rest, k, v =>
    if a = k then (k, v) :: rest else (a, w) :: dinsert rest k v

/-- `d.pop(k, default)`: remove the key (all occurrences; a real dict has at
most one). -/
def dpop : PyDict → String → PyDict
  | [], _ => []
  | (a, v) :: rest, k => if a = k then dpop rest k else (a, v) :: dpop rest k

/-- `d.update(e)`: insert every item of `e` into `d`, in order. -/
def dupdate (d e : PyDict) : PyDict :=
  e.foldl (fun acc p => dinsert acc p.1 p.2) d

/-- `dict(pairs)`: build a dict from an item list; on duplicate keys the
last occurrence wins (CPython semantics). -/
def dictFromPairs (l : PyDict) : PyDict := dupdate [] l

/-- The value of the last occurrence of a key in an item list — the lookup
a CPython dict built from that list would give. -/
def lastOcc : PyDict → String → Option Value
  | [], _ => none
  | (a, v) :: rest, k =>
    match lastOcc rest k with
    | some w => some w
    | none => if a = k then some v else none

@[simp] theorem dget_nil (k : String) : dget [] k = none := rfl

theorem dget_cons (a : String) (v : Value) (d : PyDict) (k : String) :
    dget ((a, v) :: d) k = if a = k then some v else dget d k := rfl

@[simp] theorem dkeys_nil : dkeys [] = [] := rfl

@[simp] theorem dkeys_cons (a : String) (v : Value) (d : PyDict) :
    dkeys ((a, v) :: d) = a :: dkeys d := rfl

theorem dget_dinsert (d : PyDict) (a : String) (v : Value) (k : String) :
    dget (dinsert d a v) k = if a = k then some v else dget d k := by
  induction d with
  | nil => simp [dinsert, dget_cons]
  | cons hd tl ih =>
    obtain ⟨b, w⟩ := hd
    simp only [dinsert]
    by_cases hba : b = a
    · rw [if_pos hba, dget_cons, dget_cons, hba]
      by_cases hak : a = k
      · rw [if_pos hak, if_pos hak]
      · rw [if_neg hak, if_neg hak, if_neg hak]
    · rw [if_neg hba, dget_cons, dget_cons, ih]
      by_cases hbk : b = k
      · have hak : ¬a = k := fun h => hba (h ▸ hbk)
        rw [if_pos hbk, if_neg hak, if_pos hbk]
      · rw [if_neg hbk, if_neg hbk]

theorem dget_dpop (d : PyDict) (k k' : String) :
    dget (dpop d k) k' = if k = k' then none else dget d k' := by
  induction d with
  | nil => by_cases h : k = k' <;> simp [dpop, h]
  | cons hd tl ih =>
    obtain ⟨a, v⟩ := hd
    simp only [dpop]
    by_cases hak : a = k
    · rw [if_pos hak, ih]
      by_cases hkk : k = k'
      · simp [hkk]
      · have hak' : ¬a = k' := by rw [hak]; exact hkk
        rw [if_neg hkk, if_neg hkk, dget_cons, if_neg hak']
    · rw [if_neg hak, dget_cons, dget_cons, ih]
      by_cases hak' : a = k'
      · have hkk : ¬k = k' := fun h => hak (hak'.trans h.symm)
        simp [hak', hkk]
      · simp [hak']

theorem dget_dupdate (d e : PyDict) (k : String) :
    dget (dupdate d e) k =
      match lastOcc e k with
      | some v => some v
      | none => dget d k := by
  induction e generalizing d with
  | nil => simp [dupdate, lastOcc]
  | cons hd tl ih =>
    obtain ⟨a, v⟩ := hd
    have h1 : dupdate d ((a, v) :: tl) = dupdate (dinsert d a v) tl := by
      simp [dupdate, List.foldl]
    rw [h1, ih]
    cases h : lastOcc tl k with
    | some w => simp [lastOcc, h]
    | none =>
      by_cases hak : a = k <;> simp [lastOcc, h, hak, dget_dinsert]

theorem dget_dictFromPairs (l : PyDict) (k : String) :
    dget (dictFromPairs l) k = lastOcc l k := by
  rw [dictFromPairs, dget_dupdate]
  cases h : lastOcc l k <;> simp

theorem lastOcc_append (d e : PyDict) (k : String) :
    lastOcc (d ++ e) k =
      match lastOcc e k with
      | some v => some v
      | none => lastOcc d k := by
  induction d with
  | nil => cases h : lastOcc e k <;> simp [lastOcc, h]
  | cons hd tl ih =>
    obtain ⟨a, v⟩ := hd
    rw [List.cons_append, lastOcc, ih]
    cases h : lastOcc e k with
    | some w => cases h2 : lastOcc tl k <;> simp_all [lastOcc]
    | none => cases h2 : lastOcc tl k <;> simp_all [lastOcc]

theorem dget_eq_none_iff (d : PyDict) (k : String) :
    dget d k = none ↔ k ∉ dkeys d := by
  induction d with
  | nil => simp [dget]
  | cons hd tl ih =>
    obtain ⟨a, v⟩ := hd
    rw [dget_cons, dkeys_cons]
    by_cases hak : a = k
    · subst hak
      simp
    · simp [hak, ih, Ne.symm hak]

theorem lastOcc_eq_none_iff (d : PyDict) (k : String) :
    lastOcc d k = none ↔ k ∉ dkeys d := by
  induction d with
  | nil => simp [lastOcc]
  | cons hd tl ih =>
    obtain ⟨a, v⟩ := hd
    cases h : lastOcc tl k with
    | some w =>
      have hk : k ∈ dkeys tl := by
        by_contra hmem
        rw [← ih] at hmem
        rw [hmem] at h
        cases h
      simp only [lastOcc, h, dkeys_cons]
      simp [hk]
    | none =>
      have hmem : k ∉ dkeys tl := ih.mp h
      simp only [lastOcc, h, dkeys_cons]
      by_cases hak : a = k
      · subst hak
        simp
      · simp [hak, Ne.symm hak, hmem]

theorem mem_dkeys_dinsert (d : PyDict) (a : String) (v : Value) (c : String)
    (h : c ∈ dkeys (dinsert d a v)) : c ∈ dkeys d ∨ c = a := by
  induction d with
  | nil =>
    simp only [dinsert, dkeys_cons, dkeys_nil, List.mem_singleton] at h
    exact Or.inr h
  | cons hd tl ih =>
    obtain ⟨b, w⟩ := hd
    simp only [dinsert] at h
    by_cases hba : b = a
    · rw [if_pos hba, dkeys_cons, List.mem_cons] at h
      rcases h with h | h
      · exact Or.inr h
      · exact Or.inl (by rw [dkeys_cons, List.mem_cons]; exact Or.inr h)
    · rw [if_neg hba, dkeys_cons, List.mem_cons] at h
      rcases h with h | h
      · exact Or.inl (by rw [dkeys_cons, List.mem_cons]; exact Or.inl h)
      · rcases ih h with h2 | h2
        · exact Or.inl (by rw [dkeys_cons, List.mem_cons]; exact Or.inr h2)
        · exact Or.inr h2

theorem nodup_dinsert (d : PyDict) (a : String) (v : Value)
    (h : (dkeys d).Nodup) : (dkeys (dinsert d a v)).Nodup := by
  induction d with
  | nil => simp [dinsert]
  | cons hd tl ih =>
    obtain ⟨b, w⟩ := hd
    rw [dkeys_cons, List.nodup_cons] at h
    obtain ⟨hb, htl⟩ := h
    simp only [dinsert]
    by_cases hba : b = a
    · rw [if_pos hba, dkeys_cons, List.nodup_cons]
      subst hba
      exact ⟨hb, htl⟩
    · rw [if_neg hba, dkeys_cons, List.nodup_cons]
      refine ⟨?_, ih htl⟩
      intro hmem
      rcases mem_dkeys_dinsert tl a v b hmem with h3 | h3
      · exact hb h3
      · exact hba h3

theorem nodup_dupdate (d e : PyDict) (h : (dkeys d).Nodup) :
    (dkeys (dupdate d e)).Nodup := by
  induction e generalizing d with
  | nil => simpa [dupdate]
  | cons hd tl ih =>
    obtain ⟨a, v⟩ := hd
    have h1 : dupdate d ((a, v) :: tl) = dupdate (dinsert d a v) tl := by
      simp [dupdate, List.foldl]
    rw [h1]
    exact ih _ (nodup_dinsert d a v h)

theorem nodup_dictFromPairs (l : PyDict) : (dkeys (dictFromPairs l)).Nodup :=
  nodup_dupdate [] l (by simp [dkeys])

theorem mem_dkeys_dpop (d : PyDict) (k c : String)
    (h : c ∈ dkeys (dpop d k)) : c ∈ dkeys d := by
  induction d with
  | nil => simp [dpop] at h
  | cons hd tl ih =>
    obtain ⟨a, v⟩ := hd
    simp only [dpop] at h
    rw [dkeys_cons, List.mem_cons]
    by_cases hak : a = k
    · rw [if_pos hak] at h
      exact Or.inr (ih h)
    · rw [if_neg hak, dkeys_cons, List.mem_cons] at h
      rcases h with h | h
      · exact Or.inl h
      · exact Or.inr (ih h)

theorem nodup_dpop (d : PyDict) (k : String) (h : (dkeys d).Nodup) :
    (dkeys (dpop d k)).Nodup := by
  induction d with
  | nil => simp [dpop]
  | cons hd tl ih =>
    obtain ⟨a, v⟩ := hd
    rw [dkeys_cons, List.nodup_cons] at h
    obtain ⟨ha, htl⟩ := h
    simp only [dpop]
    by_cases hak : a = k
    · rw [if_pos hak]
      exact ih htl
    · rw [if_neg hak, dkeys_cons, List.nodup_cons]
      exact ⟨fun hmem => ha (mem_dkeys_dpop tl k a hmem), ih htl⟩

theorem lastOcc_eq_dget_of_nodup (d : PyDict) (k : String)
    (h : (dkeys d).Nodup) : lastOcc d k = dget d k := by
  induction d with
  | nil => simp [lastOcc, dget]
  | cons hd tl ih =>
    obtain ⟨a, v⟩ := hd
    rw [dkeys_cons, List.nodup_cons] at h
    obtain ⟨ha, htl⟩ := h
    by_cases hak : a = k
    · subst hak
      have hnone : lastOcc tl a = none := (lastOcc_eq_none_iff tl a).mpr ha
      simp [lastOcc, dget_cons, hnone]
    · rw [lastOcc, ih htl, dget_cons]
      cases h2 : dget tl k <;> simp [hak, h2]

theorem dget_foldl_dpop (names : List String) (f : PyDict) (k : String) :
    dget (names.foldl dpop f) k = if k ∈ names then none else dget f k := by
  induction names generalizing f with
  | nil => simp
  | cons a rest ih =>
    rw [List.foldl_cons, ih, dget_dpop]
    by_cases hrest : k ∈ rest
    · simp [hrest]
    · by_cases hak : a = k
      · simp [hrest, hak]
      · simp [hrest, hak, List.mem_cons, Ne.symm hak]

theorem nodup_foldl_dpop (names : List String) (f : PyDict)
    (h : (dkeys f).Nodup) : (dkeys (names.foldl dpop f)).Nodup := by
  induction names generalizing f with
  | nil => simpa
  | cons a rest ih =>
    rw [List.foldl_cons]
    exact ih _ (nodup_dpop f a h)

/-! ## The program -/

/-- Python errors the translated code can raise. -/
inductive PyErr where
  | keyError
  | indexError
  | valueError
  | typeError
  | attributeError
  | jsonDecodeError
deriving DecidableEq

/-- Python truthiness of a value (`if v:`). -/
def pyTruthy : Value → Bool
  | Value.null => false
  | Value.bool b => b
  | Value.int n => decide (n ≠ 0)
  | Value.str s => decide (s ≠ "")
  | Value.list l => !l.isEmpty
  | Value.dict d => !d.isEmpty

/-- Truthiness of a `dict.get` result (`if fields.get('exc_info'):`);
an absent key yields `None`, which is falsy. -/
def pyTruthyOpt : Option Value → Bool
  | none => false
  | some v => pyTruthy v

/-- Modelled from the spec: `traceback.format_exception` (Python standard
library, outside src/) renders a captured exception triple as "a sequence
of formatted traceback lines (an ordered list of strings, one or more
lines, matching the conventional stack-trace text layout)".  The exact
line text is irrelevant to the claims; what matters is that the result is
a non-empty ordered list of strings, which holds by construction. -/
def format_exception (excInfo : Value) : List String :=
  ["Traceback (most recent call last):\n",
   match excInfo with
   | Value.list (_ :: Value.str s :: _) => s ++ "\n"
   | _ => "\n"]

/-- The result of the brace-style interpolation `msg.format(**fields)`.
`str.format` is a Python built-in (external to src/); the code under
verification only distinguishes success from the class of the raised
exception, so the embedding of `format` is parameterised by an arbitrary
interpolation behaviour. -/
inductive InterpResult where
  | ok (s : String)
  | exn (e : PyErr)

/-- A `logging.LogRecord` as seen by the formatter: its `__dict__`
(attribute dict, which includes the raw `msg` entry) together with the
result of `record.getMessage()` (the logging framework's own `%`-style
argument substitution, external to src/). -/
structure Record where
  attrs : PyDict
  getMessageResult : String

/-- Post-construction formatter state: `self.defaults`, `self.source_host`
and `self.host`.  (`self.defaults` is restricted to an actual mapping
here; a non-mapping `extra` would make `format` raise on
`self.defaults.copy()` and is outside every claim.) -/
structure Config where
  defaults : PyDict
  source_host : Value
  host : String

/-- Lines 73-80 of `format`: copy the record's `__dict__` and resolve the
raw message — a dict message is merged into the fields, the `msg` key
popped and the message set to `""`; otherwise `record.getMessage()` is
used.  A record lacking a `msg` attribute would raise `AttributeError` at
`record.msg`. -/
def msgStage (r : Record) : Except PyErr (String × PyDict) :=
  match dget (dictFromPairs r.attrs) "msg" with
  | none => Except.error PyErr.attributeError
  | some (Value.dict mp) =>
      Except.ok ("", dpop (dupdate (dictFromPairs r.attrs) mp) "msg")
  | some _ => Except.ok (r.getMessageResult, dictFromPairs r.attrs)

/-- Lines 82-85 of `format`: `try: msg = msg.format(**fields) except
(KeyError, IndexError): pass`.  Only those two exception classes are
swallowed (leaving the message unmodified); any other exception from the
interpolation propagates. -/
def interpStep (interp : String → PyDict → InterpResult)
    (msg : String) (f : PyDict) : Except PyErr String :=
  match interp msg f with
  | InterpResult.ok s => Except.ok s
  | InterpResult.exn PyErr.keyError => Except.ok msg
  | InterpResult.exn PyErr.indexError => Except.ok msg
  | InterpResult.exn e => Except.error e

/-- Lines 87-89 of `format`: when `fields.get('exc_info')` is truthy,
store the formatted traceback under the `exception` key. -/
def excStep (f : PyDict) : PyDict :=
  match dget f "exc_info" with
  | some v =>
      if pyTruthy v then
        dinsert f "exception" (Value.list ((format_exception v).map Value.str))
      else f
  | none => f

/-- The `unwanted_tags` denylist, lines 95-97 of `format`. -/
def unwantedTags : List String :=
  ["message", "exc_text", "exc_info", "msg", "lineno", "filename",
   "funcName", "levelno", "module", "msecs", "pathname", "process",
   "processName", "relativeCreated", "thread", "threadName"]

/-- Lines 87-99 of `format` applied to the working field set: the
exception step, the two slot-extracting pops (`levelname`, `name`) and
the denylist pops. -/
def postFields (f1 : PyDict) : PyDict :=
  unwantedTags.foldl dpop (dpop (dpop (excStep f1) "levelname") "name")

/-- `_build_fields` (lines 114-131):
`dict(list(defaults.get('@fields', {}).items()) + list(fields.items()))`.
A non-dict value under `'@fields'` would raise `AttributeError` at
`.items()`. -/
def build_fields (defaults fields : PyDict) : Except PyErr PyDict :=
  match dget defaults "@fields" with
  | none => Except.ok (dictFromPairs fields)
  | some (Value.dict dfl) => Except.ok (dictFromPairs (dfl ++ fields))
  | some _ => Except.error PyErr.attributeError

/-- Lines 101-112 of `format`: `logr = self.defaults.copy()` followed by
`logr.update({...})` with the eight reserved entries, `_build_fields`
being evaluated against the still-unmodified copy of the defaults.  The
entries appear in the source's literal order. -/
def assemble (cfg : Config) (msg1 now : String) (f2 atF : PyDict) : PyDict :=
  dupdate cfg.defaults
    [("@message", Value.str msg1),
     ("@timestamp", Value.str now),
     ("@source_host", cfg.source_host),
     ("loglevel", (dget f2 "levelname").getD (Value.str "")),
     ("worker_guid", (dget (dpop f2 "levelname") "name").getD (Value.str "")),
     ("logging_type", Value.str "redis"),
     ("@host", Value.str cfg.host),
     ("@fields", Value.dict atF)]

/-- `LogstashFormatter.format` (lines 66-112), composed from the stages
above.  `now` is the `datetime.utcnow().strftime(...)` timestamp string
and `interp` the behaviour of the built-in `str.format`.  The result is
the output document (the dict passed to `json.dumps`); serialisation
itself is the external `json` module. -/
def format (cfg : Config) (interp : String → PyDict → InterpResult)
    (now : String) (r : Record) : Except PyErr PyDict :=
  match msgStage r with
  | Except.error e => Except.error e
  | Except.ok mf =>
    match interpStep interp mf.1 mf.2 with
    | Except.error e => Except.error e
    | Except.ok msg1 =>
      match build_fields cfg.defaults (postFields mf.2) with
      | Except.error e => Except.error e
      | Except.ok atF => Except.ok (assemble cfg msg1 now (excStep mf.2) atF)

/-- The reserved top-level output keys (§3 of the spec). -/
def reservedNames : List String :=
  ["@message", "@timestamp", "@source_host", "loglevel", "worker_guid",
   "logging_type", "@host", "@fields"]

/-- Project the document out of a successful `format` result
(`[]` on error; used only to state closed evaluation facts). -/
def okOut : Except PyErr PyDict → PyDict
  | Except.ok d => d
  | Except.error _ => []

/-- Whether a `format` call returned a document rather than raising. -/
def isOkE : Except PyErr PyDict → Bool
  | Except.ok _ => true
  | Except.error _ => false

/-- The nested `@fields` object of an output document. -/
def atFieldsD (doc : PyDict) : PyDict :=
  match dget doc "@fields" with
  | some (Value.dict f) => f
  | _ => []

/-! ## Structural lemmas about `format` -/

theorem format_ok_shape {cfg : Config} {interp : String → PyDict → InterpResult}
    {now : String} {r : Record} {doc : PyDict}
    (h : format cfg interp now r = Except.ok doc) :
    ∃ mf msg1 atF, msgStage r = Except.ok mf ∧
      interpStep interp mf.1 mf.2 = Except.ok msg1 ∧
      build_fields cfg.defaults (postFields mf.2) = Except.ok atF ∧
      doc = assemble cfg msg1 now (excStep mf.2) atF := by
  unfold format at h
  split at h
  · cases h
  next mf hm =>
    split at h
    · cases h
    next msg1 hi =>
      split at h
      · cases h
      next atF hb =>
        injection h with h2
        exact ⟨mf, msg1, atF, hm, hi, hb, h2.symm⟩

theorem dget_assemble (cfg : Config) (msg1 now : String) (f2 atF : PyDict)
    (k : String) :
    dget (assemble cfg msg1 now f2 atF) k =
      if "@fields" = k then some (Value.dict atF)
      else if "@host" = k then some (Value.str cfg.host)
      else if "logging_type" = k then some (Value.str "redis")
      else if "worker_guid" = k then
        some ((dget (dpop f2 "levelname") "name").getD (Value.str ""))
      else if "loglevel" = k then
        some ((dget f2 "levelname").getD (Value.str ""))
      else if "@source_host" = k then some cfg.source_host
      else if "@timestamp" = k then some (Value.str now)
      else if "@message" = k then some (Value.str msg1)
      else dget cfg.defaults k := by
  simp only [assemble, dupdate, List.foldl, dget_dinsert]

theorem atFieldsD_assemble (cfg : Config) (msg1 now : String)
    (f2 atF : PyDict) : atFieldsD (assemble cfg msg1 now f2 atF) = atF := by
  unfold atFieldsD
  rw [dget_assemble]
  simp

theorem dget_assemble_not_reserved (cfg : Config) (msg1 now : String)
    (f2 atF : PyDict) (k : String) (hk : k ∉ reservedNames) :
    dget (assemble cfg msg1 now f2 atF) k = dget cfg.defaults k := by
  simp only [reservedNames, List.mem_cons, List.not_mem_nil, or_false,
    not_or] at hk
  obtain ⟨h1, h2, h3, h4, h5, h6, h7, h8⟩ := hk
  rw [dget_assemble, if_neg (fun he => h8 he.symm), if_neg (fun he => h7 he.symm),
    if_neg (fun he => h6 he.symm), if_neg (fun he => h5 he.symm),
    if_neg (fun he => h4 he.symm), if_neg (fun he => h3 he.symm),
    if_neg (fun he => h2 he.symm), if_neg (fun he => h1 he.symm)]

theorem dget_assemble_isSome (cfg : Config) (msg1 now : String)
    (f2 atF : PyDict) (k : String) :
    (dget (assemble cfg msg1 now f2 atF) k).isSome = true ↔
      k ∈ reservedNames ∨ (dget cfg.defaults k).isSome = true := by
  by_cases hk : k ∈ reservedNames
  · have hres : k = "@message" ∨ k = "@timestamp" ∨ k = "@source_host" ∨
        k = "loglevel" ∨ k = "worker_guid" ∨ k = "logging_type" ∨
        k = "@host" ∨ k = "@fields" := by
      simpa [reservedNames] using hk
    constructor
    · intro _
      exact Or.inl hk
    · intro _
      rcases hres with rfl | rfl | rfl | rfl | rfl | rfl | rfl | rfl <;>
        rw [dget_assemble] <;> simp
  · rw [dget_assemble_not_reserved cfg msg1 now f2 atF k hk]
    simp [hk]

theorem nodup_msgStage {r : Record} {mf : String × PyDict}
    (h : msgStage r = Except.ok mf) : (dkeys mf.2).Nodup := by
  unfold msgStage at h
  split at h
  · cases h
  next mp hm =>
    injection h with h2
    rw [← h2]
    exact nodup_dpop _ _ (nodup_dupdate _ _ (nodup_dictFromPairs _))
  next v hm hnd =>
    injection h with h2
    rw [← h2]
    exact nodup_dictFromPairs _

theorem dget_excStep_ne (f : PyDict) (k : String) (hk : k ≠ "exception") :
    dget (excStep f) k = dget f k := by
  unfold excStep
  split
  next v hv =>
    by_cases ht : pyTruthy v
    · rw [if_pos ht, dget_dinsert, if_neg (fun he => hk he.symm)]
    · rw [if_neg ht]
  · rfl

theorem excStep_eq_of_falsy (f : PyDict)
    (h : pyTruthyOpt (dget f "exc_info") = false) : excStep f = f := by
  unfold excStep
  split
  next v hv =>
    rw [hv] at h
    simp only [pyTruthyOpt] at h
    rw [if_neg (by rw [h]; exact Bool.false_ne_true)]
  · rfl

theorem dget_excStep_truthy (f : PyDict) (v : Value)
    (hv : dget f "exc_info" = some v) (ht : pyTruthy v = true) :
    dget (excStep f) "exception" =
      some (Value.list ((format_exception v).map Value.str)) := by
  unfold excStep
  rw [hv]
  simp only [ht, if_true]
  rw [dget_dinsert, if_pos rfl]

theorem nodup_excStep (f : PyDict) (h : (dkeys f).Nodup) :
    (dkeys (excStep f)).Nodup := by
  unfold excStep
  split
  next v hv =>
    by_cases ht : pyTruthy v
    · rw [if_pos ht]
      exact nodup_dinsert _ _ _ h
    · rwa [if_neg ht]
  · exact h

theorem nodup_postFields (f1 : PyDict) (h : (dkeys f1).Nodup) :
    (dkeys (postFields f1)).Nodup :=
  nodup_foldl_dpop _ _ (nodup_dpop _ _ (nodup_dpop _ _ (nodup_excStep _ h)))

theorem dget_postFields (f1 : PyDict) (k : String) :
    dget (postFields f1) k =
      if k ∈ unwantedTags then none
      else if "name" = k then none
      else if "levelname" = k then none
      else dget (excStep f1) k := by
  unfold postFields
  rw [dget_foldl_dpop, dget_dpop, dget_dpop]

theorem dget_build_fields_rec {dfts f5 atF : PyDict} {k : String} {v : Value}
    (h : build_fields dfts f5 = Except.ok atF)
    (hnd : (dkeys f5).Nodup) (hv : dget f5 k = some v) :
    dget atF k = some v := by
  have hlast : lastOcc f5 k = some v := by
    rw [lastOcc_eq_dget_of_nodup _ _ hnd]
    exact hv
  unfold build_fields at h
  split at h
  · injection h with h2
    rw [← h2, dget_dictFromPairs]
    exact hlast
  next dfl hd =>
    injection h with h2
    rw [← h2, dget_dictFromPairs, lastOcc_append, hlast]
  · cases h

theorem dget_build_fields_none {dfts f5 atF : PyDict} {k : String}
    (h : build_fields dfts f5 = Except.ok atF)
    (h5 : dget f5 k = none)
    (hd : ∀ dfl, dget dfts "@fields" = some (Value.dict dfl) →
      dget dfl k = none) :
    dget atF k = none := by
  have h5' : lastOcc f5 k = none := by
    rw [lastOcc_eq_none_iff]
    rw [dget_eq_none_iff] at h5
    exact h5
  unfold build_fields at h
  split at h
  · injection h with h2
    rw [← h2, dget_dictFromPairs]
    exact h5'
  next dfl hdfl =>
    injection h with h2
    have hdn : dget dfl k = none := hd dfl hdfl
    have hlastd : lastOcc dfl k = none := by
      rw [lastOcc_eq_none_iff]
      rw [dget_eq_none_iff] at hdn
      exact hdn
    rw [← h2, dget_dictFromPairs, lastOcc_append, h5']
    exact hlastd
  · cases h

theorem dget_build_fields_defaults {dfts f5 atF dfl : PyDict} {k : String}
    {v : Value}
    (h : build_fields dfts f5 = Except.ok atF)
    (hdfl : dget dfts "@fields" = some (Value.dict dfl))
    (h5 : dget f5 k = none)
    (hnd : (dkeys dfl).Nodup) (hv : dget dfl k = some v) :
    dget atF k = some v := by
  have h5' : lastOcc f5 k = none := by
    rw [lastOcc_eq_none_iff]
    rw [dget_eq_none_iff] at h5
    exact h5
  have hlastd : lastOcc dfl k = some v := by
    rw [lastOcc_eq_dget_of_nodup _ _ hnd]
    exact hv
  unfold build_fields at h
  rw [hdfl] at h
  injection h with h2
  rw [← h2, dget_dictFromPairs, lastOcc_append, h5']
  exact hlastd

/-! ## Construction (`__init__`, lines 44-64) -/

/-- Whether `pat` occurs as a contiguous prefix of `l`. -/
def charsPref : List Char → List Char → Bool
  | [], _ => true
  | _ :: _, [] => false
  | a :: as, b :: bs => a == b && charsPref as bs

/-- Whether `p` occurs as a contiguous run inside `l` (Python substring
containment). -/
def charsInf (p : List Char) : List Char → Bool
  | [] => p.isEmpty
  | b :: bs => charsPref p (b :: bs) || charsInf p bs

/-- Python `k in v` for the decoded configuration value: key membership
for dicts, element membership for lists, substring containment for
strings; `TypeError` for numbers, booleans and `None`. -/
def pyContains (v : Value) (k : String) : Except PyErr Bool :=
  match v with
  | Value.dict d => Except.ok (dget d k).isSome
  | Value.list l =>
      Except.ok (l.any (fun x =>
        match x with
        | Value.str s => decide (s = k)
        | _ => false))
  | Value.str s => Except.ok (charsInf k.data s.data)
  | _ => Except.error PyErr.typeError

/-- Python `v[k]` with a string key: dict lookup (`KeyError` when the key
is absent); `TypeError` on anything that is not a dict. -/
def pySubscript (v : Value) (k : String) : Except PyErr Value :=
  match v with
  | Value.dict d =>
    match dget d k with
    | some x => Except.ok x
    | none => Except.error PyErr.keyError
  | _ => Except.error PyErr.typeError

/-- Formatter state right after `__init__`: `self.defaults`,
`self.source_host` and `self.host` (the JSON-encoder arguments are
irrelevant to every claim). -/
structure InitState where
  defaults : Value
  source_host : Value
  host : String

/-- The `fmt` argument of `__init__` after the `json.loads` call (the
`json` module is external to src/): `none` is `fmt=None`; `some none` is
a payload on which `json.loads` raises (invalid JSON); `some (some v)` is
a payload decoding to `v`. -/
def parseFmt : Option (Option Value) → Except PyErr Value
  | none => Except.ok (Value.dict [])
  | some none => Except.error PyErr.jsonDecodeError
  | some (some v) => Except.ok v

/-- `LogstashFormatter.__init__` (lines 44-64).  `hostname` is the result
of `socket.gethostname()` (`none` when it raises) and `ipaddr` the result
of `socket.gethostbyname(socket.gethostname())` (`none` when that raises);
both lookups are external to src/ and wrapped in `try/except` that
degrades to the empty string. -/
def init (fmt : Option (Option Value)) (hostname ipaddr : Option String) :
    Except PyErr InitState :=
  match parseFmt fmt with
  | Except.error e => Except.error e
  | Except.ok f =>
    match pyContains f "extra" with
    | Except.error e => Except.error e
    | Except.ok hasExtra =>
      match (if hasExtra then pySubscript f "extra"
             else Except.ok (Value.dict [])) with
      | Except.error e => Except.error e
      | Except.ok dfl =>
        match pyContains f "source_host" with
        | Except.error e => Except.error e
        | Except.ok hasSH =>
          match (if hasSH then pySubscript f "source_host"
                 else Except.ok (Value.str (hostname.getD ""))) with
          | Except.error e => Except.error e
          | Except.ok sh => Except.ok ⟨dfl, sh, ipaddr.getD ""⟩

/-! ## Call sequences (`format` as a state transformer)

The `format` method mutates only dicts it freshly creates during the
call: `fields = record.__dict__.copy()` (all `update`/`pop`/item
assignments act on that copy), `logr = self.defaults.copy()` (the
`update` acts on the copy), and the new dict built by `_build_fields`.
Neither `self.defaults` nor any value nested inside it is ever assigned
or mutated, and the call returns a string, so no alias of the formatter's
state escapes.  The state after a call therefore equals the state before
it, which is what `formatCall` records. -/

/-- The per-call inputs of one `format` invocation. -/
structure CallInput where
  interp : String → PyDict → InterpResult
  now : String
  rcd : Record

/-- One `format` call as a transformer of the formatter state. -/
def formatCall (cfg : Config) (c : CallInput) :
    Except PyErr PyDict × Config :=
  (format cfg c.interp c.now c.rcd, cfg)

/-- A sequence of `format` calls on the same formatter instance,
threading the formatter state through. -/
def runCalls (cfg : Config) : List CallInput → List (Except PyErr PyDict) × Config
  | [] => ([], cfg)
  | c :: cs =>
    let out := formatCall cfg c
    let rest := runCalls out.2 cs
    (out.1 :: rest.1, rest.2)

/-! ## Concrete fixtures used in counterexamples and witnesses -/

/-- Interpolation behaviour of `str.format` on a template without
placeholders: it returns the string unchanged. -/
def interpId : String → PyDict → InterpResult := fun s _ => InterpResult.ok s

/-- Interpolation behaviour of `str.format` on a malformed template such
as `"{"`: in CPython, `"{".format(**fields)` raises
`ValueError: Single '{' encountered in format string`, which is not among
the exception classes the `try/except` in `format` catches. -/
def interpValueError : String → PyDict → InterpResult :=
  fun _ _ => InterpResult.exn PyErr.valueError

/-- Interpolation behaviour of `str.format` on a template that references
a placeholder name missing from the field set, e.g.
`"hello {name}".format()`: raises `KeyError`. -/
def interpKeyError : String → PyDict → InterpResult :=
  fun _ _ => InterpResult.exn PyErr.keyError

/-- A minimal string-message record: `__dict__ = {'msg': 'hello'}`,
`getMessage()` returning `"hello"`. -/
def recPlain : Record := ⟨[("msg", Value.str "hello")], "hello"⟩

/-! ## Claim C1 -/

/-- Counterexample input to C1: configuration `{"extra": {"env": "prod"}}`. -/
def cfgC1 : Config := ⟨[("env", Value.str "prod")], Value.str "srchost", "10.0.0.1"⟩

/-- C1 is false as stated: with configuration `{"extra": {"env": "prod"}}`
and a plain record, `format` succeeds and its output document carries the
configured default `env` as a top-level key — `logr = self.defaults.copy()`
seeds the top level of the output with the extra defaults, which the
reserved-key `update` does not remove. -/
theorem c1_counterexample :
    isOkE (format cfgC1 interpId "2026-10-12T00:00:00.000000Z" recPlain) = true ∧
    dget (okOut (format cfgC1 interpId "2026-10-12T00:00:00.000000Z" recPlain))
      "env" = some (Value.str "prod") ∧
    "env" ∉ reservedNames :=
  ⟨rfl, rfl, by decide⟩

/-- C1 (amended): whenever `format` returns a document, its top-level
keys are exactly the reserved keys (which include `@fields`) together
with the keys of the configured extra defaults; in particular, with an
empty `extra` configuration the top-level keys are exactly the reserved
ones. -/
theorem c1_top_level_keys (cfg : Config)
    (interp : String → PyDict → InterpResult) (now : String) (r : Record)
    (doc : PyDict) (h : format cfg interp now r = Except.ok doc)
    (k : String) :
    (dget doc k).isSome = true ↔
      k ∈ reservedNames ∨ (dget cfg.defaults k).isSome = true := by
  obtain ⟨mf, msg1, atF, hm, hi, hb, hdoc⟩ := format_ok_shape h
  rw [hdoc]
  exact dget_assemble_isSome cfg msg1 now (excStep mf.2) atF k

/-- An empty configuration (`extra` absent): `defaults = {}`. -/
def cfgEmpty : Config := ⟨[], Value.str "srchost", "10.0.0.1"⟩

/-- Witness for C1 at a concrete input: with the empty configuration the
key `@message` is present because it is reserved. -/
theorem c1_witness :
    (dget (okOut (format cfgEmpty interpId "t" recPlain)) "@message").isSome
        = true ↔
      "@message" ∈ reservedNames ∨
        (dget cfgEmpty.defaults "@message").isSome = true :=
  c1_top_level_keys cfgEmpty interpId "t" recPlain
    (okOut (format cfgEmpty interpId "t" recPlain)) rfl "@message"

/-! ## Claim C2 -/

/-- Counterexample input to C2: configuration `{"extra": {"env": "prod"}}`. -/
def cfgC2 : Config := ⟨[("env", Value.str "prod")], Value.str "srchost", "10.0.0.1"⟩

/-- Record for the C2 counterexample, supplying no `env` field. -/
def recC2 : Record := ⟨[("msg", Value.str "hi")], "hi"⟩

/-- C2 is false as stated: the configured default `env -> "prod"` does not
reach the nested `@fields` object (it surfaces as a top-level key
instead), because `_build_fields` merges only the defaults nested under
the extra configuration's own `@fields` key. -/
theorem c2_counterexample :
    dget cfgC2.defaults "env" = some (Value.str "prod") ∧
    dget (dictFromPairs recC2.attrs) "env" = none ∧
    isOkE (format cfgC2 interpId "t" recC2) = true ∧
    dget (atFieldsD (okOut (format cfgC2 interpId "t" recC2))) "env" = none :=
  ⟨rfl, rfl, rfl, rfl⟩

/-- C2 (amended): configured extra defaults are merged at lowest
precedence into the TOP LEVEL of the output (any non-reserved default key
survives with its configured value); only defaults nested under the extra
configuration's `@fields` key are merged into the nested `@fields` object
at lowest precedence (they appear whenever the processed record fields do
not supply the same key). -/
theorem c2_defaults_merge :
    (∀ (cfg : Config) (interp : String → PyDict → InterpResult)
        (now : String) (r : Record) (doc : PyDict) (k : String) (v : Value),
      dget cfg.defaults k = some v → k ∉ reservedNames →
      format cfg interp now r = Except.ok doc →
      dget doc k = some v) ∧
    (∀ (cfg : Config) (interp : String → PyDict → InterpResult)
        (now : String) (r : Record) (mf : String × PyDict) (doc : PyDict)
        (dfl : PyDict) (k : String) (v : Value),
      msgStage r = Except.ok mf →
      dget cfg.defaults "@fields" = some (Value.dict dfl) →
      (dkeys dfl).Nodup → dget dfl k = some v →
      dget (postFields mf.2) k = none →
      format cfg interp now r = Except.ok doc →
      dget (atFieldsD doc) k = some v) := by
  constructor
  · intro cfg interp now r doc k v hv hk h
    obtain ⟨mf, msg1, atF, hm, hi, hb, hdoc⟩ := format_ok_shape h
    rw [hdoc, dget_assemble_not_reserved cfg msg1 now (excStep mf.2) atF k hk]
    exact hv
  · intro cfg interp now r mf doc dfl k v hm hdfl hnd hv h5 h
    obtain ⟨mf', msg1, atF, hm', hi, hb, hdoc⟩ := format_ok_shape h
    have hmf : mf' = mf := by
      rw [hm] at hm'
      injection hm' with h2
      exact h2.symm
    subst hmf
    rw [hdoc, atFieldsD_assemble]
    exact dget_build_fields_defaults hb hdfl h5 hnd hv

/-- Witness for C2 (amended) at a concrete input: the configured default
`env -> "prod"` appears at the top level of the output. -/
theorem c2_witness :
    dget (okOut (format cfgC2 interpId "t" recC2)) "env"
      = some (Value.str "prod") :=
  c2_defaults_merge.1 cfgC2 interpId "t" recC2
    (okOut (format cfgC2 interpId "t" recC2)) "env" (Value.str "prod")
    rfl (by decide) rfl

/-! ## Claim C3 -/

/-- Counterexample configuration for C3:
`{"extra": {"@fields": {"levelname": "conf"}}}`. -/
def cfgC3 : Config :=
  ⟨[("@fields", Value.dict [("levelname", Value.str "conf")])],
   Value.str "srchost", "10.0.0.1"⟩

/-- Counterexample record for C3: it supplies `levelname = "INFO"`. -/
def recC3 : Record :=
  ⟨[("msg", Value.str "m"), ("levelname", Value.str "INFO")], "m"⟩

/-- C3 is false as stated: `levelname` is neither reserved nor in the
denylist, the record supplies `levelname = "INFO"` and the configured
defaults supply `levelname = "conf"`, yet `@fields.levelname` in the
output is the configured default `"conf"` — the record's value is popped
into the top-level `loglevel` slot before the merge, so the configured
default wins. -/
theorem c3_counterexample :
    dget (dictFromPairs recC3.attrs) "levelname" = some (Value.str "INFO") ∧
    "levelname" ∉ unwantedTags ∧
    "levelname" ∉ reservedNames ∧
    dget (atFieldsD (okOut (format cfgC3 interpId "t" recC3))) "levelname"
      = some (Value.str "conf") :=
  ⟨rfl, by decide, by decide, rfl⟩

/-- C3 (amended): for field names that are not in the denylist, not the
slot-extracted names `levelname`/`name`, and not `exception` while
non-empty exception info is active, the record-supplied value always
appears in `@fields`, overriding any configured default of the same
name. -/
theorem c3_record_wins (cfg : Config)
    (interp : String → PyDict → InterpResult) (now : String) (r : Record)
    (mf : String × PyDict) (k : String) (v : Value) (doc : PyDict)
    (hm : msgStage r = Except.ok mf)
    (hv : dget mf.2 k = some v)
    (h1 : k ∉ unwantedTags) (h2 : "levelname" ≠ k) (h3 : "name" ≠ k)
    (h4 : k = "exception" → pyTruthyOpt (dget mf.2 "exc_info") = false)
    (h : format cfg interp now r = Except.ok doc) :
    dget (atFieldsD doc) k = some v := by
  obtain ⟨mf', msg1, atF, hm', hi, hb, hdoc⟩ := format_ok_shape h
  have hmf : mf' = mf := by
    rw [hm] at hm'
    injection hm' with h5
    exact h5.symm
  rw [hmf] at hb hdoc
  rw [hdoc, atFieldsD_assemble]
  have h5 : dget (postFields mf.2) k = some v := by
    rw [dget_postFields, if_neg h1, if_neg h3, if_neg h2]
    by_cases hke : k = "exception"
    · rw [excStep_eq_of_falsy mf.2 (h4 hke)]
      exact hv
    · rw [dget_excStep_ne mf.2 k hke]
      exact hv
  exact dget_build_fields_rec hb (nodup_postFields mf.2 (nodup_msgStage hm)) h5

/-- Witness configuration for C3 (amended):
`{"extra": {"@fields": {"foo": "baz"}}}`. -/
def cfgW3 : Config :=
  ⟨[("@fields", Value.dict [("foo", Value.str "baz")])],
   Value.str "srchost", "10.0.0.1"⟩

/-- Witness record for C3 (amended): it supplies `foo = "bar"`. -/
def recW3 : Record :=
  ⟨[("msg", Value.str "m"), ("foo", Value.str "bar")], "m"⟩

/-- Witness for C3 (amended) at a concrete input: the record's
`foo = "bar"` wins over the configured default `foo = "baz"`. -/
theorem c3_witness :
    dget (atFieldsD (okOut (format cfgW3 interpId "t" recW3))) "foo"
      = some (Value.str "bar") :=
  c3_record_wins cfgW3 interpId "t" recW3
    ("m", [("msg", Value.str "m"), ("foo", Value.str "bar")])
    "foo" (Value.str "bar") (okOut (format cfgW3 interpId "t" recW3))
    rfl rfl (by decide) (by decide) (by decide)
    (fun hke => absurd hke (by decide)) rfl

/-! ## Claim C4 -/

/-- Record for the C4 counterexample: raw message `"{"`, a malformed
brace template. -/
def recC4 : Record := ⟨[("msg", Value.str "\x7b")], "\x7b"⟩

/-- Configuration for the C4 counterexample. -/
def cfgC4 : Config := ⟨[], Value.str "srchost", "10.0.0.1"⟩

/-- C4 is false as stated: with the malformed template `"{"`,
`msg.format(**fields)` raises `ValueError` (modelled by
`interpValueError`), which the handler `except (KeyError, IndexError)`
does not catch, so `format` raises rather than leaving the message
unmodified. -/
theorem c4_counterexample :
    format cfgC4 interpValueError "t" recC4 = Except.error PyErr.valueError :=
  rfl

/-- C4 (amended): only interpolation failures of class `KeyError` (a
referenced placeholder name missing from the field set) or `IndexError`
(a positional placeholder out of range) are silently swallowed; in those
cases `format` does not raise and the output's `@message` is exactly the
pre-interpolation message text, with no partial substitution.  Other
interpolation errors (e.g. `ValueError` from a malformed template)
propagate out of `format`. -/
theorem c4_interp_catch (cfg : Config)
    (interp : String → PyDict → InterpResult) (now : String) (r : Record)
    (mf : String × PyDict) (atF : PyDict)
    (hm : msgStage r = Except.ok mf)
    (hi : interp mf.1 mf.2 = InterpResult.exn PyErr.keyError ∨
          interp mf.1 mf.2 = InterpResult.exn PyErr.indexError)
    (hb : build_fields cfg.defaults (postFields mf.2) = Except.ok atF) :
    format cfg interp now r =
      Except.ok (assemble cfg mf.1 now (excStep mf.2) atF) ∧
    dget (assemble cfg mf.1 now (excStep mf.2) atF) "@message"
      = some (Value.str mf.1) := by
  have hstep : interpStep interp mf.1 mf.2 = Except.ok mf.1 := by
    rcases hi with hi | hi <;> simp [interpStep, hi]
  constructor
  · simp only [format, hm, hstep, hb]
  · rw [dget_assemble]
    simp

/-- Witness record for C4 (amended): message `"hello {name}"` with no
`name` in the field set. -/
def recW4 : Record := ⟨[("msg", Value.str "hello {name}")], "hello {name}"⟩

/-- Witness configuration for C4 (amended). -/
def cfgW4 : Config := ⟨[], Value.str "srchost", "10.0.0.1"⟩

/-- Witness for C4 (amended) at a concrete input: a `KeyError` from the
interpolation is swallowed and `@message` is the original template. -/
theorem c4_witness :
    format cfgW4 interpKeyError "t" recW4 =
      Except.ok (assemble cfgW4 "hello {name}" "t"
        (excStep [("msg", Value.str "hello {name}")]) []) ∧
    dget (assemble cfgW4 "hello {name}" "t"
        (excStep [("msg", Value.str "hello {name}")]) []) "@message"
      = some (Value.str "hello {name}") :=
  c4_interp_catch cfgW4 interpKeyError "t" recW4
    ("hello {name}", [("msg", Value.str "hello {name}")]) []
    rfl (Or.inl rfl) rfl

/-! ## Claim C5 -/

/-- Record for the C5 counterexample: structured message
`{"lineno": 99}` — its only key is on the denylist. -/
def recC5 : Record := ⟨[("msg", Value.dict [("lineno", Value.int 99)])], ""⟩

/-- Configuration for the C5 counterexample. -/
def cfgC5 : Config := ⟨[], Value.str "srchost", "10.0.0.1"⟩

/-- C5 is false as stated: with the structured message `{"lineno": 99}`,
`format` succeeds but the mapping key `lineno` appears nowhere in the
output — neither in `@fields` nor at the top level — because the
denylist pops run after the mapping is merged into the field set. -/
theorem c5_counterexample :
    dget (dictFromPairs recC5.attrs) "msg"
      = some (Value.dict [("lineno", Value.int 99)]) ∧
    isOkE (format cfgC5 interpId "t" recC5) = true ∧
    dget (atFieldsD (okOut (format cfgC5 interpId "t" recC5))) "lineno"
      = none ∧
    dget (okOut (format cfgC5 interpId "t" recC5)) "lineno" = none :=
  ⟨rfl, rfl, rfl, rfl⟩

/-- C5 (amended): when the raw message is a structured mapping, the
resolved `@message` is the empty string (given that interpolating the
empty template succeeds with the empty string, as `"".format` does in
Python), the raw `msg` key is removed from the working field set, and
every mapping key that is not denylisted, not a slot-extracted name
(`levelname`/`name`), and not `exception` while non-empty exception info
is active, appears in the output's `@fields` with its mapping value
(merged at highest precedence). -/
theorem c5_dict_message (cfg : Config)
    (interp : String → PyDict → InterpResult) (now : String) (r : Record)
    (mp : PyDict) (doc : PyDict)
    (hm : dget (dictFromPairs r.attrs) "msg" = some (Value.dict mp))
    (hi0 : interp "" (dpop (dupdate (dictFromPairs r.attrs) mp) "msg")
      = InterpResult.ok "")
    (h : format cfg interp now r = Except.ok doc) :
    dget doc "@message" = some (Value.str "") ∧
    dget (dpop (dupdate (dictFromPairs r.attrs) mp) "msg") "msg" = none ∧
    (∀ k v, lastOcc mp k = some v → k ∉ unwantedTags →
      "levelname" ≠ k → "name" ≠ k →
      (k = "exception" →
        pyTruthyOpt (dget (dpop (dupdate (dictFromPairs r.attrs) mp) "msg")
          "exc_info") = false) →
      dget (atFieldsD doc) k = some v) := by
  have hms : msgStage r =
      Except.ok ("", dpop (dupdate (dictFromPairs r.attrs) mp) "msg") := by
    unfold msgStage
    rw [hm]
  obtain ⟨mf', msg1, atF, hm', hi, hb, hdoc⟩ := format_ok_shape h
  have hmf : mf' = ("", dpop (dupdate (dictFromPairs r.attrs) mp) "msg") := by
    rw [hms] at hm'
    injection hm' with h5
    exact h5.symm
  subst hmf
  have hmsg1 : msg1 = "" := by
    unfold interpStep at hi
    rw [hi0] at hi
    injection hi with h5
    exact h5.symm
  subst hmsg1
  refine ⟨?_, ?_, ?_⟩
  · rw [hdoc, dget_assemble]
    simp
  · rw [dget_dpop]
    simp
  · intro k v hkv hk1 hk2 hk3 hk4
    rw [hdoc, atFieldsD_assemble]
    have hf1 : dget (dpop (dupdate (dictFromPairs r.attrs) mp) "msg") k
        = some v := by
      have hkmsg : ¬("msg" = k) := by
        intro he
        rw [← he] at hk1
        exact hk1 (by decide)
      rw [dget_dpop, if_neg hkmsg, dget_dupdate, hkv]
    have h5 : dget (postFields
        (dpop (dupdate (dictFromPairs r.attrs) mp) "msg")) k = some v := by
      rw [dget_postFields, if_neg hk1, if_neg hk3, if_neg hk2]
      by_cases hke : k = "exception"
      · rw [excStep_eq_of_falsy _ (hk4 hke)]
        exact hf1
      · rw [dget_excStep_ne _ k hke]
        exact hf1
    exact dget_build_fields_rec hb
      (nodup_postFields _ (nodup_msgStage hms)) h5

/-- Witness record for C5 (amended): structured message `{"a": 1}`. -/
def recW5 : Record := ⟨[("msg", Value.dict [("a", Value.int 1)])], ""⟩

/-- Witness configuration for C5 (amended). -/
def cfgW5 : Config := ⟨[], Value.str "srchost", "10.0.0.1"⟩

/-- Witness for C5 (amended) at a concrete input: `@message` is empty and
the mapping key `a` appears in `@fields` with its value. -/
theorem c5_witness :
    dget (okOut (format cfgW5 interpId "t" recW5)) "@message"
      = some (Value.str "") ∧
    dget (atFieldsD (okOut (format cfgW5 interpId "t" recW5))) "a"
      = some (Value.int 1) := by
  have h := c5_dict_message cfgW5 interpId "t" recW5 [("a", Value.int 1)]
    (okOut (format cfgW5 interpId "t" recW5)) rfl rfl rfl
  exact ⟨h.1, h.2.2 "a" (Value.int 1) rfl (by decide) (by decide) (by decide)
    (fun hke => absurd hke (by decide))⟩

/-! ## Claim C6 -/

/-- C6: when the working field set carries a truthy (non-empty)
`exc_info` entry, the output's `@fields` holds an `exception` key whose
value is the non-empty ordered list of formatted traceback lines; when
`exc_info` is absent or falsy, the formatter adds no `exception` key —
`@fields` has one only if the record itself or the configured
`@fields` defaults supplied it, which the last two hypotheses of the
second part rule out. -/
theorem c6_exception_field (cfg : Config)
    (interp : String → PyDict → InterpResult) (now : String) (r : Record)
    (mf : String × PyDict) (doc : PyDict)
    (hm : msgStage r = Except.ok mf)
    (h : format cfg interp now r = Except.ok doc) :
    (∀ v, dget mf.2 "exc_info" = some v → pyTruthy v = true →
      dget (atFieldsD doc) "exception"
        = some (Value.list ((format_exception v).map Value.str)) ∧
      format_exception v ≠ []) ∧
    (pyTruthyOpt (dget mf.2 "exc_info") = false →
      dget mf.2 "exception" = none →
      (∀ dfl, dget cfg.defaults "@fields" = some (Value.dict dfl) →
        dget dfl "exception" = none) →
      dget (atFieldsD doc) "exception" = none) := by
  obtain ⟨mf', msg1, atF, hm', hi, hb, hdoc⟩ := format_ok_shape h
  have hmf : mf' = mf := by
    rw [hm] at hm'
    injection hm' with h5
    exact h5.symm
  rw [hmf] at hb hdoc
  constructor
  · intro v hv ht
    rw [hdoc, atFieldsD_assemble]
    have h5 : dget (postFields mf.2) "exception"
        = some (Value.list ((format_exception v).map Value.str)) := by
      rw [dget_postFields, if_neg (by decide : ¬("exception" : String) ∈ unwantedTags),
        if_neg (by decide : ¬("name" : String) = "exception"),
        if_neg (by decide : ¬("levelname" : String) = "exception")]
      exact dget_excStep_truthy mf.2 v hv ht
    refine ⟨dget_build_fields_rec hb
      (nodup_postFields mf.2 (nodup_msgStage hm)) h5, ?_⟩
    intro hc
    simp [format_exception] at hc
  · intro hfalsy hrec hdfl
    rw [hdoc, atFieldsD_assemble]
    have h5 : dget (postFields mf.2) "exception" = none := by
      rw [dget_postFields, if_neg (by decide : ¬("exception" : String) ∈ unwantedTags),
        if_neg (by decide : ¬("name" : String) = "exception"),
        if_neg (by decide : ¬("levelname" : String) = "exception"),
        excStep_eq_of_falsy mf.2 hfalsy]
      exact hrec
    exact dget_build_fields_none hb h5 hdfl

/-- The captured exception triple used in the C6 witness:
`(ValueError, "boom", traceback)`. -/
def excW6 : Value :=
  Value.list [Value.str "ValueError", Value.str "boom", Value.null]

/-- Witness record for C6: it carries a non-empty `exc_info` triple. -/
def recW6 : Record :=
  ⟨[("msg", Value.str "m"), ("exc_info", excW6)], "m"⟩

/-- Witness configuration for C6. -/
def cfgW6 : Config := ⟨[], Value.str "srchost", "10.0.0.1"⟩

/-- Witness for C6 at a concrete input: the formatted traceback appears
under `exception` in `@fields` and is non-empty. -/
theorem c6_witness :
    dget (atFieldsD (okOut (format cfgW6 interpId "t" recW6))) "exception"
      = some (Value.list ((format_exception excW6).map Value.str)) ∧
    format_exception excW6 ≠ [] := by
  have h := c6_exception_field cfgW6 interpId "t" recW6
    ("m", [("msg", Value.str "m"), ("exc_info", excW6)])
    (okOut (format cfgW6 interpId "t" recW6)) rfl rfl
  exact h.1 excW6 rfl rfl

/-! ## Claim C7 -/

/-- Counterexample configuration for C7:
`{"extra": {"@fields": {"msg": "inj"}}}` — it nests the denylisted name
`msg` under the extra configuration's `@fields` key. -/
def cfgC7 : Config :=
  ⟨[("@fields", Value.dict [("msg", Value.str "inj")])],
   Value.str "srchost", "10.0.0.1"⟩

/-- Record for the C7 counterexample. -/
def recC7 : Record := ⟨[("msg", Value.str "m")], "m"⟩

/-- C7 is false as stated: the denylist pops strip `msg` only from the
record's working field set; a configured default nested under the extra
configuration's `@fields` key is merged unfiltered, so the denylisted
name `msg` appears as a top-level key of the output's `@fields`. -/
theorem c7_counterexample :
    "msg" ∈ unwantedTags ∧
    dget (atFieldsD (okOut (format cfgC7 interpId "t" recC7))) "msg"
      = some (Value.str "inj") :=
  ⟨by decide, rfl⟩

/-- C7 (amended): denylisted names coming from the record (its attributes
or a structured message) never appear in `@fields`; provided the
configured extra's nested `@fields` mapping does not itself contain the
denylisted name, that name is absent from the output's `@fields`
altogether. -/
theorem c7_denylist (cfg : Config)
    (interp : String → PyDict → InterpResult) (now : String) (r : Record)
    (doc : PyDict) (t : String)
    (ht : t ∈ unwantedTags)
    (hdfl : ∀ dfl, dget cfg.defaults "@fields" = some (Value.dict dfl) →
      dget dfl t = none)
    (h : format cfg interp now r = Except.ok doc) :
    dget (atFieldsD doc) t = none := by
  obtain ⟨mf, msg1, atF, hm, hi, hb, hdoc⟩ := format_ok_shape h
  rw [hdoc, atFieldsD_assemble]
  have h5 : dget (postFields mf.2) t = none := by
    rw [dget_postFields, if_pos ht]
  exact dget_build_fields_none hb h5 hdfl

/-- Witness configuration for C7 (amended). -/
def cfgW7 : Config := ⟨[], Value.str "srchost", "10.0.0.1"⟩

/-- Witness record for C7 (amended): it carries the denylisted
bookkeeping attribute `lineno`. -/
def recW7 : Record :=
  ⟨[("msg", Value.str "m"), ("lineno", Value.int 12)], "m"⟩

/-- Witness for C7 (amended) at a concrete input: the record's `lineno`
is stripped from `@fields`. -/
theorem c7_witness :
    dget (atFieldsD (okOut (format cfgW7 interpId "t" recW7))) "lineno"
      = none :=
  c7_denylist cfgW7 interpId "t" recW7
    (okOut (format cfgW7 interpId "t" recW7)) "lineno" (by decide)
    (fun dfl hd => nomatch hd) rfl

/-! ## Claim C8 -/

/-- C8: running any sequence of `format` calls on one formatter leaves
the formatter state — in particular `self.defaults`, the configured
extra fields — unchanged, and each call's result is exactly what a
single `format` call on the original configuration produces for that
call's record: there is no cross-call contamination.  (In the source this
rests on `format` mutating only dicts it freshly creates: the copy of
`record.__dict__`, the copy `logr = self.defaults.copy()` and the new
dict built by `_build_fields`; no nested value of `self.defaults` is ever
mutated.) -/
theorem c8_no_cross_call_contamination (cfg : Config)
    (calls : List CallInput) :
    (runCalls cfg calls).2 = cfg ∧
    (runCalls cfg calls).1 =
      calls.map (fun c => format cfg c.interp c.now c.rcd) := by
  induction calls with
  | nil => exact ⟨rfl, rfl⟩
  | cons c cs ih =>
    obtain ⟨ih1, ih2⟩ := ih
    exact ⟨ih1, by simp [runCalls, formatCall, ih2]⟩

/-! ## Claim C9 -/

/-- C9 is false as stated: the payload `"3"` is valid JSON (it decodes to
the number `3`), yet construction fails — `'extra' not in self._fmt`
raises `TypeError: argument of type 'int' is not iterable`. -/
theorem c9_counterexample :
    init (some (some (Value.int 3))) (some "myhost") (some "10.0.0.1")
      = Except.error PyErr.typeError :=
  rfl

/-- C9 (amended): construction fails when the configuration payload is
not valid JSON (the decode error propagates), and also when the payload
is valid JSON decoding to a number, boolean or null (the membership test
`'extra' not in self._fmt` raises `TypeError`).  With no payload, or a
payload decoding to a JSON object, construction succeeds: missing
`extra` defaults to an empty mapping, and missing `source_host` is
resolved from the local host name, degrading to the empty string when
resolution fails.  (The host IP is likewise resolved once, degrading to
the empty string.) -/
theorem c9_construction :
    (∀ hn ip : Option String, init none hn ip =
      Except.ok ⟨Value.dict [], Value.str (hn.getD ""), ip.getD ""⟩) ∧
    (∀ hn ip : Option String,
      init (some none) hn ip = Except.error PyErr.jsonDecodeError) ∧
    (∀ (d : PyDict) (hn ip : Option String),
      init (some (some (Value.dict d))) hn ip =
        Except.ok ⟨(dget d "extra").getD (Value.dict []),
          (dget d "source_host").getD (Value.str (hn.getD "")),
          ip.getD ""⟩) ∧
    (∀ (n : Int) (hn ip : Option String),
      init (some (some (Value.int n))) hn ip
        = Except.error PyErr.typeError) ∧
    (∀ (b : Bool) (hn ip : Option String),
      init (some (some (Value.bool b))) hn ip
        = Except.error PyErr.typeError) ∧
    (∀ hn ip : Option String,
      init (some (some Value.null)) hn ip
        = Except.error PyErr.typeError) := by
  refine ⟨fun hn ip => rfl, fun hn ip => rfl, ?_,
    fun n hn ip => rfl, fun b hn ip => rfl, fun hn ip => rfl⟩
  intro d hn ip
  unfold init parseFmt pyContains pySubscript
  cases h1 : dget d "extra" <;> cases h2 : dget d "source_host" <;>
    simp [h1, h2]

/-! ## Claim C10 -/

/-- C10: the reserved top-level keys always hold the values computed by
`format` itself — `logging_type` is the literal `"redis"`, `@timestamp`
the formatted clock reading, `@source_host`/`@host` the values resolved
at construction, `@message` the interpolated message and `@fields` the
merged field object — because `logr.update({...})` runs after
`logr = self.defaults.copy()`, so neither a configured default nor a
record attribute of the same name can replace them. -/
theorem c10_reserved_values (cfg : Config)
    (interp : String → PyDict → InterpResult) (now : String) (r : Record)
    (mf : String × PyDict) (msg1 : String) (atF : PyDict) (doc : PyDict)
    (hm : msgStage r = Except.ok mf)
    (hi : interpStep interp mf.1 mf.2 = Except.ok msg1)
    (hb : build_fields cfg.defaults (postFields mf.2) = Except.ok atF)
    (h : format cfg interp now r = Except.ok doc) :
    dget doc "logging_type" = some (Value.str "redis") ∧
    dget doc "@timestamp" = some (Value.str now) ∧
    dget doc "@source_host" = some cfg.source_host ∧
    dget doc "@host" = some (Value.str cfg.host) ∧
    dget doc "@message" = some (Value.str msg1) ∧
    dget doc "@fields" = some (Value.dict atF) := by
  obtain ⟨mf', msg1', atF', hm', hi', hb', hdoc⟩ := format_ok_shape h
  have hmf : mf' = mf := by
    rw [hm] at hm'
    injection hm' with h5
    exact h5.symm
  rw [hmf] at hi' hb' hdoc
  have hmsg : msg1' = msg1 := by
    rw [hi] at hi'
    injection hi' with h5
    exact h5.symm
  have hatF : atF' = atF := by
    rw [hb] at hb'
    injection hb' with h5
    exact h5.symm
  rw [hmsg, hatF] at hdoc
  rw [hdoc]
  refine ⟨?_, ?_, ?_, ?_, ?_, ?_⟩ <;> rw [dget_assemble] <;> simp

/-- Witness configuration for C10: its extra defaults try to clobber the
reserved keys `logging_type` and `@message`. -/
def cfgW10 : Config :=
  ⟨[("logging_type", Value.str "evil"), ("@message", Value.str "evil")],
   Value.str "srchost", "10.0.0.1"⟩

/-- Witness record for C10. -/
def recW10 : Record := ⟨[("msg", Value.str "hey")], "hey"⟩

/-- Witness for C10 at a concrete input: despite the clobbering defaults,
the output's reserved keys hold the computed values. -/
theorem c10_witness :
    dget (okOut (format cfgW10 interpId "t" recW10)) "logging_type"
      = some (Value.str "redis") ∧
    dget (okOut (format cfgW10 interpId "t" recW10)) "@timestamp"
      = some (Value.str "t") ∧
    dget (okOut (format cfgW10 interpId "t" recW10)) "@source_host"
      = some cfgW10.source_host ∧
    dget (okOut (format cfgW10 interpId "t" recW10)) "@host"
      = some (Value.str cfgW10.host) ∧
    dget (okOut (format cfgW10 interpId "t" recW10)) "@message"
      = some (Value.str "hey") ∧
    dget (okOut (format cfgW10 interpId "t" recW10)) "@fields"
      = some (Value.dict []) :=
  c10_reserved_values cfgW10 interpId "t" recW10
    ("hey", [("msg", Value.str "hey")]) "hey" []
    (okOut (format cfgW10 interpId "t" recW10)) rfl rfl rfl rfl

end Logstash
